import Mathlib

set_option maxHeartbeats 1000000

/-!
Shallow embedding of the plugin dispatch engine of
libstoragemgmt-golang (`plugin.go`): the `PluginInit` bootstrap and the
`Plugin.Run` receive-dispatch-reply loop, together with the pieces of the
external collaborators (`errors` package, `transPort`) that the loop
observes.  The transport is modelled by the sequence of outcomes its
`readRequest` produces (a `List ReadResult`) and by the trace of effects
the loop performs on it (`List Event`).
-/

namespace Libstoragemgmt

namespace errors

/-- Modelled from the spec: the `errors` package is an external
collaborator (not among the verified sources); the spec describes a
closed enumeration of integer error codes.  Only the distinctness of the
three codes named by plugin.go matters for the dispatch engine.
`errors.LibBug`: internal contract violation. -/
def LibBug : Int := 1

/-- Modelled from the spec: `errors.NoSupport`, the code of the
"method not supported" reply synthesized by the dispatcher. -/
def NoSupport : Int := 38

/-- Modelled from the spec: `errors.TransPortComunication`, the code of a
connection-level failure, always fatal to the session. -/
def TransPortComunication : Int := 400

/-- `errors.LsmError`: the structured error value, an integer code plus a
human-readable message. -/
structure LsmError where
  Code : Int
  Message : String
  deriving Repr, DecidableEq

end errors

/-- A Go `error` interface value as the run loop sees it: either a
structured `*errors.LsmError` (the `ok == true` branch of the type
assertion in `Plugin.Run`) or some other error type. -/
inductive GoError where
  | lsm (e : errors.LsmError)
  | other (msg : String)
  deriving Repr, DecidableEq

/-- A decoded request as returned by `transPort.readRequest`: a method
name and the raw JSON parameter payload (opaque to the loop, modelled as
a string). -/
structure Request where
  Method : String
  Params : String
  deriving Repr, DecidableEq

/-- Outcome of one call to `transPort.readRequest`: a request, or an
error value. -/
inductive ReadResult where
  | ok (req : Request)
  | readErr (e : GoError)
  deriving Repr, DecidableEq

/-- `type handler func(p *Plugin, params json.RawMessage) (interface{}, error)`.
The raw parameter payload and the opaque `interface{}` result are both
modelled as strings (the loop never inspects either); the `*Plugin`
receiver argument is dropped since `Run` merely threads it through. -/
abbrev handler := String → Except GoError String

/-- Effects `Plugin.Run` performs, in order: `tp.sendError`,
`tp.sendResponse`, `tp.close`, and the two `fmt.Printf` log lines on the
fatal read-error paths. -/
inductive Event where
  | sendError (e : GoError)
  | sendResponse (r : String)
  | close
  | logCommError (e : errors.LsmError)
  | logUnexpected (e : GoError)
  deriving Repr, DecidableEq

/-- Whether an event is a transmission on the transport
(`sendError` or `sendResponse`). -/
def isSend : Event → Bool
  | .sendError _ => true
  | .sendResponse _ => true
  | _ => false

/-- How a run of the loop on a finite read trace ends: `terminated` when
the loop executed `return`; `blocked` when the trace was exhausted and
the loop is waiting on the next `readRequest`. -/
inductive Outcome where
  | terminated
  | blocked
  deriving Repr, DecidableEq

/-- The observable result of running the loop on a finite read trace:
the effects performed, the read results never consumed, and how the run
ended. -/
structure RunTrace where
  events : List Event
  remaining : List ReadResult
  outcome : Outcome
  deriving Repr, DecidableEq

/-- `noSupport` from plugin.go: the error reply sent for a method with no
usable dispatch-table entry. -/
def noSupport (method : String) : Event :=
  Event.sendError (GoError.lsm
    ⟨errors.NoSupport, "method " ++ method ++ " not supported"⟩)

/-- `Plugin.Run` from plugin.go, as a function from the sequence of
`readRequest` outcomes to the trace of effects.  The dispatch table
(`p.callTable`, a Go map whose entries may hold `nil` function values) is
an association list from method name to `Option handler`; a Go lookup
`f, ok := p.callTable[m]` becomes `List.lookup m tbl`, with `ok` the
outer option and `f != nil` the inner one. -/
def Run (tbl : List (String × Option handler)) : List ReadResult → RunTrace
  | [] => ⟨[], [], Outcome.blocked⟩
  | ReadResult.readErr (GoError.lsm e) :: rest =>
      if e.Code ≠ errors.TransPortComunication then
        let t := Run tbl rest
        ⟨Event.sendError (GoError.lsm e) :: t.events, t.remaining, t.outcome⟩
      else
        ⟨[Event.logCommError e], rest, Outcome.terminated⟩
  | ReadResult.readErr (GoError.other m) :: rest =>
      ⟨[Event.logUnexpected (GoError.other m)], rest, Outcome.terminated⟩
  | ReadResult.ok req :: rest =>
      match List.lookup req.Method tbl with
      | some (some f) =>
          let ev :=
            match f req.Params with
            | Except.error e => Event.sendError e
            | Except.ok r => Event.sendResponse r
          if req.Method = "plugin_unregister" then
            ⟨[ev, Event.close], rest, Outcome.terminated⟩
          else
            let t := Run tbl rest
            ⟨ev :: t.events, t.remaining, t.outcome⟩
      | _ =>
          let t := Run tbl rest
          ⟨noSupport req.Method :: t.events, t.remaining, t.outcome⟩

/-- The single reply event produced by dispatching to a found, non-nil
handler: the error sent verbatim, or the encoded response. -/
def dispatchEvent (f : handler) (params : String) : Event :=
  match f params with
  | Except.error e => Event.sendError e
  | Except.ok r => Event.sendResponse r

theorem Run_nil (tbl : List (String × Option handler)) :
    Run tbl [] = ⟨[], [], Outcome.blocked⟩ := rfl

theorem Run_readErr_recoverable (tbl : List (String × Option handler))
    (rest : List ReadResult) (e : errors.LsmError)
    (h : e.Code ≠ errors.TransPortComunication) :
    Run tbl (ReadResult.readErr (GoError.lsm e) :: rest)
      = ⟨Event.sendError (GoError.lsm e) :: (Run tbl rest).events,
         (Run tbl rest).remaining, (Run tbl rest).outcome⟩ := by
  simp only [Run]
  rw [if_pos h]

theorem Run_readErr_comm (tbl : List (String × Option handler))
    (rest : List ReadResult) (e : errors.LsmError)
    (h : e.Code = errors.TransPortComunication) :
    Run tbl (ReadResult.readErr (GoError.lsm e) :: rest)
      = ⟨[Event.logCommError e], rest, Outcome.terminated⟩ := by
  simp only [Run]
  rw [if_neg (by simp [h])]

theorem Run_readErr_other (tbl : List (String × Option handler))
    (rest : List ReadResult) (m : String) :
    Run tbl (ReadResult.readErr (GoError.other m) :: rest)
      = ⟨[Event.logUnexpected (GoError.other m)], rest, Outcome.terminated⟩ := rfl

theorem Run_ok_found_unregister (tbl : List (String × Option handler))
    (rest : List ReadResult) (f : handler) (pr : String)
    (hf : List.lookup "plugin_unregister" tbl = some (some f)) :
    Run tbl (ReadResult.ok ⟨"plugin_unregister", pr⟩ :: rest)
      = ⟨[dispatchEvent f pr, Event.close], rest, Outcome.terminated⟩ := by
  simp only [Run, hf, dispatchEvent, if_true]

theorem Run_ok_found_other (tbl : List (String × Option handler))
    (rest : List ReadResult) (f : handler) (m pr : String)
    (hm : m ≠ "plugin_unregister")
    (hf : List.lookup m tbl = some (some f)) :
    Run tbl (ReadResult.ok ⟨m, pr⟩ :: rest)
      = ⟨dispatchEvent f pr :: (Run tbl rest).events,
         (Run tbl rest).remaining, (Run tbl rest).outcome⟩ := by
  simp only [Run, hf, dispatchEvent]
  rw [if_neg hm]

theorem Run_ok_absent (tbl : List (String × Option handler))
    (rest : List ReadResult) (m pr : String)
    (h : List.lookup m tbl = none) :
    Run tbl (ReadResult.ok ⟨m, pr⟩ :: rest)
      = ⟨noSupport m :: (Run tbl rest).events,
         (Run tbl rest).remaining, (Run tbl rest).outcome⟩ := by
  simp only [Run, h]

theorem Run_ok_nil_handler (tbl : List (String × Option handler))
    (rest : List ReadResult) (m pr : String)
    (h : List.lookup m tbl = some none) :
    Run tbl (ReadResult.ok ⟨m, pr⟩ :: rest)
      = ⟨noSupport m :: (Run tbl rest).events,
         (Run tbl rest).remaining, (Run tbl rest).outcome⟩ := by
  simp only [Run, h]

theorem dispatchEvent_isSend (f : handler) (pr : String) :
    isSend (dispatchEvent f pr) = true := by
  unfold dispatchEvent
  cases f pr <;> rfl

theorem dispatchEvent_ne_close (f : handler) (pr : String) :
    dispatchEvent f pr ≠ Event.close := by
  unfold dispatchEvent
  cases f pr <;> simp

/-- A run that ends `blocked` (the read trace was exhausted without the
loop returning) never closed the transport. -/
theorem Run_blocked_no_close (tbl : List (String × Option handler)) :
    ∀ inputs, (Run tbl inputs).outcome = Outcome.blocked →
      Event.close ∉ (Run tbl inputs).events := by
  intro inputs
  induction inputs with
  | nil => intro h; simp [Run_nil]
  | cons i rest ih =>
    intro hb
    rcases i with req | ge
    · obtain ⟨m, pr⟩ := req
      rcases hl : List.lookup m tbl with _ | of
      · rw [Run_ok_absent tbl rest m pr hl] at hb ⊢
        intro hmem
        rcases List.mem_cons.mp hmem with h1 | h2
        · exact absurd h1 (by simp [noSupport])
        · exact ih hb h2
      · rcases of with _ | f
        · rw [Run_ok_nil_handler tbl rest m pr hl] at hb ⊢
          intro hmem
          rcases List.mem_cons.mp hmem with h1 | h2
          · exact absurd h1 (by simp [noSupport])
          · exact ih hb h2
        · by_cases hm : m = "plugin_unregister"
          · subst hm
            rw [Run_ok_found_unregister tbl rest f pr hl] at hb
            exact Outcome.noConfusion hb
          · rw [Run_ok_found_other tbl rest f m pr hm hl] at hb ⊢
            intro hmem
            rcases List.mem_cons.mp hmem with h1 | h2
            · exact absurd h1 (Ne.symm (dispatchEvent_ne_close f pr))
            · exact ih hb h2
    · rcases ge with e | s
      · by_cases hc : e.Code = errors.TransPortComunication
        · rw [Run_readErr_comm tbl rest e hc] at hb
          exact Outcome.noConfusion hb
        · rw [Run_readErr_recoverable tbl rest e hc] at hb ⊢
          intro hmem
          rcases List.mem_cons.mp hmem with h1 | h2
          · exact absurd h1 (by simp)
          · exact ih hb h2
      · rw [Run_readErr_other tbl rest s] at hb
        exact Outcome.noConfusion hb

/-- Sequential composition: if running on `pre` leaves the loop blocked
(waiting for the next request), running on `pre ++ xs` performs `pre`'s
effects and then behaves as the run on `xs`. -/
theorem Run_append (tbl : List (String × Option handler)) :
    ∀ pre xs, (Run tbl pre).outcome = Outcome.blocked →
      Run tbl (pre ++ xs)
        = ⟨(Run tbl pre).events ++ (Run tbl xs).events,
           (Run tbl xs).remaining, (Run tbl xs).outcome⟩ := by
  intro pre
  induction pre with
  | nil =>
    intro xs h
    simp only [List.nil_append, Run_nil]
  | cons i rest ih =>
    intro xs hb
    rcases i with req | ge
    · obtain ⟨m, pr⟩ := req
      rcases hl : List.lookup m tbl with _ | of
      · have hb' : (Run tbl rest).outcome = Outcome.blocked := by
          rw [Run_ok_absent tbl rest m pr hl] at hb; exact hb
        rw [List.cons_append, Run_ok_absent tbl (rest ++ xs) m pr hl,
            Run_ok_absent tbl rest m pr hl, ih xs hb']
        simp
      · rcases of with _ | f
        · have hb' : (Run tbl rest).outcome = Outcome.blocked := by
            rw [Run_ok_nil_handler tbl rest m pr hl] at hb; exact hb
          rw [List.cons_append, Run_ok_nil_handler tbl (rest ++ xs) m pr hl,
              Run_ok_nil_handler tbl rest m pr hl, ih xs hb']
          simp
        · by_cases hm : m = "plugin_unregister"
          · subst hm
            rw [Run_ok_found_unregister tbl rest f pr hl] at hb
            exact Outcome.noConfusion hb
          · have hb' : (Run tbl rest).outcome = Outcome.blocked := by
              rw [Run_ok_found_other tbl rest f m pr hm hl] at hb; exact hb
            rw [List.cons_append, Run_ok_found_other tbl (rest ++ xs) f m pr hm hl,
                Run_ok_found_other tbl rest f m pr hm hl, ih xs hb']
            simp
    · rcases ge with e | s
      · by_cases hc : e.Code = errors.TransPortComunication
        · rw [Run_readErr_comm tbl rest e hc] at hb
          exact Outcome.noConfusion hb
        · have hb' : (Run tbl rest).outcome = Outcome.blocked := by
            rw [Run_readErr_recoverable tbl rest e hc] at hb; exact hb
          rw [List.cons_append, Run_readErr_recoverable tbl (rest ++ xs) e hc,
              Run_readErr_recoverable tbl rest e hc, ih xs hb']
          simp
      · rw [Run_readErr_other tbl rest s] at hb
        exact Outcome.noConfusion hb

/-- Go `strconv.ParseInt(s, 10, 32)` as used by `PluginInit`: an optional
sign, then base-10 ASCII digits, with the value required to fit the
signed 32-bit range; `none` models a non-nil error return. -/
def digitsVal : List Char → Option Nat
  | [] => none
  | cs =>
      cs.foldl
        (fun acc c =>
          match acc with
          | none => none
          | some n => if c.isDigit then some (n * 10 + (c.toNat - 48)) else none)
        (some 0)

/-- See `digitsVal`. -/
def goParseInt32 (s : String) : Option Int :=
  let signAndDigits : Bool × List Char :=
    match s.data with
    | '-' :: rest => (true, rest)
    | '+' :: rest => (false, rest)
    | cs => (false, cs)
  match digitsVal signAndDigits.2 with
  | none => none
  | some n =>
      let v : Int := if signAndDigits.1 then -(n : Int) else (n : Int)
      if -(2 ^ 31 : Int) ≤ v ∧ v ≤ 2 ^ 31 - 1 then some v else none

/-- Errors `PluginInit` can return: the structured LsmError built in
plugin.go for a bad argument count, the raw `strconv.ParseInt` error for
a non-numeric descriptor argument, or a `net.FileConn` failure. -/
inductive InitError where
  | lsm (e : errors.LsmError)
  | strconvErr (arg : String)
  | fileConnErr (msg : String)
  deriving Repr, DecidableEq

/-- The successfully constructed plugin value: the transport wrapped
around the inherited descriptor plus the description and version strings
(the callback table built by `buildTable` plays no role in the bootstrap
claims). -/
structure Plugin where
  fd : Int
  desc : String
  ver : String
  deriving Repr, DecidableEq

/-- `PluginInit` from plugin.go.  `fileConn` models the outcome of
`net.FileConn` on the parsed descriptor (`none` = success), an external
effect of the runtime environment. -/
def PluginInit (fileConn : Int → Option String) (cmdLineArgs : List String)
    (desc ver : String) : Except InitError Plugin :=
  match cmdLineArgs with
  | [_, a] =>
      match goParseInt32 a with
      | none => Except.error (InitError.strconvErr a)
      | some fd =>
          match fileConn fd with
          | some msg => Except.error (InitError.fileConnErr msg)
          | none => Except.ok ⟨fd, desc, ver⟩
  | args =>
      Except.error (InitError.lsm
        ⟨errors.LibBug,
         "Plugin called with invalid args: ["
           ++ String.intercalate " " args ++ "]\n"⟩)

/-- Whether a construction error is the structured LibBug error. -/
def isLibBugInitError : InitError → Bool
  | .lsm e => e.Code == errors.LibBug
  | _ => false

/-- A `net.FileConn` stub that always succeeds (witness data). -/
def fcOk : Int → Option String := fun _ => none

/-- A handler that succeeds (witness data). -/
def okHandler : handler := fun _ => Except.ok "null"

/-- A handler that fails with a domain error (witness data). -/
def errHandler : handler := fun _ => Except.error (GoError.lsm ⟨7, "boom"⟩)

/-- Witness table: `plugin_unregister` registered with a succeeding
callback. -/
def tblUnregOk : List (String × Option handler) :=
  [("plugin_unregister", some okHandler)]

/-- Witness table: `plugin_unregister` registered with a failing
callback. -/
def tblUnregErr : List (String × Option handler) :=
  [("plugin_unregister", some errHandler)]

/-- Witness table: `pools` registered with a failing callback. -/
def tblPoolsErr : List (String × Option handler) :=
  [("pools", some errHandler)]

/-- Witness table: a `plugin_unregister` entry holding a nil handler. -/
def tblNilUnreg : List (String × Option handler) :=
  [("plugin_unregister", none)]

/-- C1: whenever a `plugin_unregister` request is received and dispatched
(the dispatch table holds a non-nil handler for it and the loop reaches
the request), the transport is closed exactly once, the reads queued
after it are never consumed, and the loop terminates — whatever the
unregister callback returns. -/
theorem unregister_closes_once_and_terminates
    (tbl : List (String × Option handler)) (f : handler)
    (pre post : List ReadResult) (pr : String)
    (hf : List.lookup "plugin_unregister" tbl = some (some f))
    (hpre : (Run tbl pre).outcome = Outcome.blocked) :
    (Run tbl (pre ++ ReadResult.ok ⟨"plugin_unregister", pr⟩ :: post)).events.count
        Event.close = 1
    ∧ (Run tbl (pre ++ ReadResult.ok ⟨"plugin_unregister", pr⟩ :: post)).remaining
        = post
    ∧ (Run tbl (pre ++ ReadResult.ok ⟨"plugin_unregister", pr⟩ :: post)).outcome
        = Outcome.terminated := by
  rw [Run_append tbl pre _ hpre, Run_ok_found_unregister tbl post f pr hf]
  refine ⟨?_, rfl, rfl⟩
  have h0 : (Run tbl pre).events.count Event.close = 0 :=
    List.count_eq_zero.mpr (Run_blocked_no_close tbl pre hpre)
  simp [List.count_append, h0, List.count_cons,
        dispatchEvent_ne_close f pr, Ne.symm (dispatchEvent_ne_close f pr)]

/-- C1 witness: a session consisting of one successful
`plugin_unregister` request. -/
theorem unregister_closes_once_and_terminates_witness :
    (Run tblUnregOk [ReadResult.ok ⟨"plugin_unregister", ""⟩]).events.count
        Event.close = 1
    ∧ (Run tblUnregOk [ReadResult.ok ⟨"plugin_unregister", ""⟩]).remaining = []
    ∧ (Run tblUnregOk [ReadResult.ok ⟨"plugin_unregister", ""⟩]).outcome
        = Outcome.terminated :=
  unregister_closes_once_and_terminates tblUnregOk okHandler [] [] "" rfl rfl

/-- C3 counterexample: a `plugin_unregister` callback returns a
structured error; the error is sent verbatim, but the session closes the
transport and terminates instead of continuing to read the next queued
request, refuting the claim for that request. -/
theorem callback_error_unregister_counterexample :
    errHandler "p" = Except.error (GoError.lsm ⟨7, "boom"⟩)
    ∧ Run tblUnregErr
        [ReadResult.ok ⟨"plugin_unregister", "p"⟩, ReadResult.ok ⟨"pools", "q"⟩]
      = ⟨[Event.sendError (GoError.lsm ⟨7, "boom"⟩), Event.close],
         [ReadResult.ok ⟨"pools", "q"⟩], Outcome.terminated⟩ := ⟨rfl, rfl⟩

/-- C3 (amended): for every request whose method is not
`plugin_unregister` and whose registered callback returns an error, the
loop sends exactly that error value, unchanged, and continues with the
rest of the read trace; a `plugin_unregister` request still has its
callback error sent verbatim but then closes the session. -/
theorem callback_error_sent_verbatim_and_continues
    (tbl : List (String × Option handler)) (rest : List ReadResult)
    (m pr : String) (f : handler) (e : GoError)
    (hm : m ≠ "plugin_unregister")
    (hf : List.lookup m tbl = some (some f))
    (he : f pr = Except.error e) :
    Run tbl (ReadResult.ok ⟨m, pr⟩ :: rest)
      = ⟨Event.sendError e :: (Run tbl rest).events,
         (Run tbl rest).remaining, (Run tbl rest).outcome⟩ := by
  rw [Run_ok_found_other tbl rest f m pr hm hf]
  simp [dispatchEvent, he]

/-- C3 witness: a `pools` request whose callback fails. -/
theorem callback_error_sent_verbatim_and_continues_witness :
    Run tblPoolsErr [ReadResult.ok ⟨"pools", "q"⟩]
      = ⟨[Event.sendError (GoError.lsm ⟨7, "boom"⟩)], [], Outcome.blocked⟩ :=
  callback_error_sent_verbatim_and_continues tblPoolsErr [] "pools" "q"
    errHandler (GoError.lsm ⟨7, "boom"⟩) (by decide) rfl rfl

/-- C4: a read failure classified `TransPortComunication` terminates the
loop at once: the only effect after those already performed is the log
line (not a transmission), and the reads queued after the failure are
never consumed. -/
theorem transport_comm_failure_exits_without_send
    (tbl : List (String × Option handler)) (pre post : List ReadResult)
    (e : errors.LsmError)
    (hpre : (Run tbl pre).outcome = Outcome.blocked)
    (hc : e.Code = errors.TransPortComunication) :
    Run tbl (pre ++ ReadResult.readErr (GoError.lsm e) :: post)
      = ⟨(Run tbl pre).events ++ [Event.logCommError e], post, Outcome.terminated⟩
    ∧ isSend (Event.logCommError e) = false := by
  refine ⟨?_, rfl⟩
  rw [Run_append tbl pre _ hpre, Run_readErr_comm tbl post e hc]

/-- C4 witness: a session whose first read fails with a communication
error. -/
theorem transport_comm_failure_exits_without_send_witness :
    Run ([] : List (String × Option handler))
        [ReadResult.readErr (GoError.lsm ⟨errors.TransPortComunication, "down"⟩)]
      = ⟨[Event.logCommError ⟨errors.TransPortComunication, "down"⟩], [],
         Outcome.terminated⟩
    ∧ isSend (Event.logCommError ⟨errors.TransPortComunication, "down"⟩) = false :=
  transport_comm_failure_exits_without_send [] [] []
    ⟨errors.TransPortComunication, "down"⟩ rfl rfl

/-- C5: a request whose method has no dispatch-table entry is answered
with a `NoSupport` error whose message names that method, and the loop
continues with the rest of the read trace. -/
theorem unknown_method_gets_no_support_and_continues
    (tbl : List (String × Option handler)) (rest : List ReadResult)
    (m pr : String) (h : List.lookup m tbl = none) :
    Run tbl (ReadResult.ok ⟨m, pr⟩ :: rest)
      = ⟨Event.sendError (GoError.lsm
            ⟨errors.NoSupport, "method " ++ m ++ " not supported"⟩)
           :: (Run tbl rest).events,
         (Run tbl rest).remaining, (Run tbl rest).outcome⟩ :=
  Run_ok_absent tbl rest m pr h

/-- C5 witness: an empty table and a `volume_create` request. -/
theorem unknown_method_gets_no_support_and_continues_witness :
    Run ([] : List (String × Option handler)) [ReadResult.ok ⟨"volume_create", "p"⟩]
      = ⟨[Event.sendError (GoError.lsm
            ⟨errors.NoSupport, "method volume_create not supported"⟩)], [],
         Outcome.blocked⟩ :=
  unknown_method_gets_no_support_and_continues [] [] "volume_create" "p" rfl

/-- C6: with two requests queued A then B, the loop emits A's single
response first and only then behaves as the run starting at B; when A is
a dispatched `plugin_unregister`, B is never read at all (it stays in the
unconsumed remainder).  No effect of B's processing precedes A's
response. -/
theorem requests_processed_in_receipt_order
    (tbl : List (String × Option handler)) (reqA reqB : Request)
    (rest : List ReadResult) :
    ∃ evA, isSend evA = true ∧
      (Run tbl (ReadResult.ok reqA :: ReadResult.ok reqB :: rest)
         = ⟨evA :: (Run tbl (ReadResult.ok reqB :: rest)).events,
            (Run tbl (ReadResult.ok reqB :: rest)).remaining,
            (Run tbl (ReadResult.ok reqB :: rest)).outcome⟩
       ∨ Run tbl (ReadResult.ok reqA :: ReadResult.ok reqB :: rest)
         = ⟨[evA, Event.close], ReadResult.ok reqB :: rest, Outcome.terminated⟩) := by
  obtain ⟨m, pr⟩ := reqA
  rcases hl : List.lookup m tbl with _ | of
  · exact ⟨noSupport m, rfl, Or.inl (Run_ok_absent tbl _ m pr hl)⟩
  · rcases of with _ | f
    · exact ⟨noSupport m, rfl, Or.inl (Run_ok_nil_handler tbl _ m pr hl)⟩
    · by_cases hm : m = "plugin_unregister"
      · subst hm
        exact ⟨dispatchEvent f pr, dispatchEvent_isSend f pr,
               Or.inr (Run_ok_found_unregister tbl _ f pr hl)⟩
      · exact ⟨dispatchEvent f pr, dispatchEvent_isSend f pr,
               Or.inl (Run_ok_found_other tbl _ f m pr hm hl)⟩

/-- C7: a structured read error whose code is not `TransPortComunication`
is sent back over the still-open transport and the loop continues with
the rest of the read trace. -/
theorem recoverable_read_error_sent_and_continues
    (tbl : List (String × Option handler)) (rest : List ReadResult)
    (e : errors.LsmError) (h : e.Code ≠ errors.TransPortComunication) :
    Run tbl (ReadResult.readErr (GoError.lsm e) :: rest)
      = ⟨Event.sendError (GoError.lsm e) :: (Run tbl rest).events,
         (Run tbl rest).remaining, (Run tbl rest).outcome⟩
    ∧ isSend (Event.sendError (GoError.lsm e)) = true :=
  ⟨Run_readErr_recoverable tbl rest e h, rfl⟩

/-- C7 witness: a decode-level LibBug read error followed by nothing. -/
theorem recoverable_read_error_sent_and_continues_witness :
    Run ([] : List (String × Option handler))
        [ReadResult.readErr (GoError.lsm ⟨errors.LibBug, "decode failure"⟩)]
      = ⟨[Event.sendError (GoError.lsm ⟨errors.LibBug, "decode failure"⟩)], [],
         Outcome.blocked⟩
    ∧ isSend (Event.sendError (GoError.lsm ⟨errors.LibBug, "decode failure"⟩))
        = true :=
  recoverable_read_error_sent_and_continues [] []
    ⟨errors.LibBug, "decode failure"⟩ (by decide)

/-- C8: a read failure that is not a structured error value is logged and
terminates the loop, with no reply sent on the transport; the reads
queued after it are never consumed. -/
theorem unexpected_read_error_logs_and_exits
    (tbl : List (String × Option handler)) (rest : List ReadResult)
    (m : String) :
    Run tbl (ReadResult.readErr (GoError.other m) :: rest)
      = ⟨[Event.logUnexpected (GoError.other m)], rest, Outcome.terminated⟩
    ∧ isSend (Event.logUnexpected (GoError.other m)) = false :=
  ⟨Run_readErr_other tbl rest m, rfl⟩

/-- C9: a dispatch-table entry holding a nil handler behaves exactly like
an absent entry: the nil handler is never invoked, the `NoSupport` reply
naming the method is sent, and the loop continues.  Instantiated at
`m = "plugin_unregister"` this shows a nil unregister slot neither closes
the transport nor terminates the loop. -/
theorem nil_handler_treated_as_absent
    (tbl : List (String × Option handler)) (rest : List ReadResult)
    (m pr : String) (h : List.lookup m tbl = some none) :
    Run tbl (ReadResult.ok ⟨m, pr⟩ :: rest)
      = ⟨noSupport m :: (Run tbl rest).events,
         (Run tbl rest).remaining, (Run tbl rest).outcome⟩
    ∧ (Run tbl [ReadResult.ok ⟨m, pr⟩]).outcome = Outcome.blocked
    ∧ Event.close ∉ (Run tbl [ReadResult.ok ⟨m, pr⟩]).events := by
  refine ⟨Run_ok_nil_handler tbl rest m pr h, ?_, ?_⟩
  · rw [Run_ok_nil_handler tbl [] m pr h]
    rfl
  · rw [Run_ok_nil_handler tbl [] m pr h]
    intro hmem
    rcases List.mem_cons.mp hmem with h1 | h2
    · exact absurd h1 (by simp [noSupport])
    · simp [Run_nil] at h2

/-- C9 witness: a table whose `plugin_unregister` entry holds a nil
handler. -/
theorem nil_handler_treated_as_absent_witness :
    Run tblNilUnreg [ReadResult.ok ⟨"plugin_unregister", ""⟩]
      = ⟨[noSupport "plugin_unregister"], [], Outcome.blocked⟩
    ∧ (Run tblNilUnreg [ReadResult.ok ⟨"plugin_unregister", ""⟩]).outcome
        = Outcome.blocked
    ∧ Event.close ∉ (Run tblNilUnreg [ReadResult.ok ⟨"plugin_unregister", ""⟩]).events :=
  nil_handler_treated_as_absent tblNilUnreg [] "plugin_unregister" "" rfl

/-- C10: each successfully read request is answered by exactly one
transmission — a single `sendError` or `sendResponse`, never zero and
never two — before any event of the next read: either the request was a
dispatched `plugin_unregister` (one send, then close, then termination)
or the loop continues and every later event belongs to the rest of the
trace. -/
theorem exactly_one_reply_per_request
    (tbl : List (String × Option handler)) (req : Request)
    (rest : List ReadResult) :
    ∃ ev, isSend ev = true ∧
      (Run tbl (ReadResult.ok req :: rest)
         = ⟨[ev, Event.close], rest, Outcome.terminated⟩
       ∨ Run tbl (ReadResult.ok req :: rest)
         = ⟨ev :: (Run tbl rest).events,
            (Run tbl rest).remaining, (Run tbl rest).outcome⟩) := by
  obtain ⟨m, pr⟩ := req
  rcases hl : List.lookup m tbl with _ | of
  · exact ⟨noSupport m, rfl, Or.inr (Run_ok_absent tbl rest m pr hl)⟩
  · rcases of with _ | f
    · exact ⟨noSupport m, rfl, Or.inr (Run_ok_nil_handler tbl rest m pr hl)⟩
    · by_cases hm : m = "plugin_unregister"
      · subst hm
        exact ⟨dispatchEvent f pr, dispatchEvent_isSend f pr,
               Or.inl (Run_ok_found_unregister tbl rest f pr hl)⟩
      · exact ⟨dispatchEvent f pr, dispatchEvent_isSend f pr,
               Or.inr (Run_ok_found_other tbl rest f m pr hm hl)⟩

/-- C2 counterexample: with the right argument count but a non-numeric
descriptor argument, `PluginInit` fails with the raw `strconv.ParseInt`
error, which is not the structured LibBug error the claim requires. -/
theorem plugin_init_nonnumeric_not_libbug :
    PluginInit fcOk ["plugin", "abc"] "desc" "ver"
      = Except.error (InitError.strconvErr "abc")
    ∧ isLibBugInitError (InitError.strconvErr "abc") = false := ⟨rfl, rfl⟩

/-- C2 (amended): with an argument count other than two, `PluginInit`
fails with the structured LibBug error and no plugin value is produced;
with exactly two arguments whose second is non-numeric, it fails with the
raw parse error (not a LibBug error) and no plugin value is produced.  In
both cases the run loop is never entered. -/
theorem plugin_init_argument_validation
    (fc : Int → Option String) (args : List String) (desc ver : String) :
    (args.length ≠ 2 →
      PluginInit fc args desc ver
        = Except.error (InitError.lsm
            ⟨errors.LibBug,
             "Plugin called with invalid args: ["
               ++ String.intercalate " " args ++ "]\n"⟩))
    ∧ (∀ a b, args = [a, b] → goParseInt32 b = none →
        PluginInit fc args desc ver = Except.error (InitError.strconvErr b)) := by
  constructor
  · intro hlen
    match args, hlen with
    | [], _ => rfl
    | [a], _ => rfl
    | [a, b], h => exact absurd rfl h
    | a :: b :: c :: t, _ => rfl
  · intro a b hab hpb
    subst hab
    simp [PluginInit, hpb]

/-- C2 witness: both amended branches at concrete inputs. -/
theorem plugin_init_argument_validation_witness :
    PluginInit fcOk ["plugin"] "desc" "ver"
      = Except.error (InitError.lsm
          ⟨errors.LibBug, "Plugin called with invalid args: [plugin]\n"⟩)
    ∧ PluginInit fcOk ["plugin", "xy"] "desc" "ver"
      = Except.error (InitError.strconvErr "xy") :=
  ⟨(plugin_init_argument_validation fcOk ["plugin"] "desc" "ver").1 (by decide),
   (plugin_init_argument_validation fcOk ["plugin", "xy"] "desc" "ver").2
     "plugin" "xy" rfl (by decide)⟩

end Libstoragemgmt
